import Mathlib

set_option maxRecDepth 4000

/- Verification of the ImmigrationQA bot core: the detail-collection waterfall
   (src/dialogs/bookingDialog.js), the response table and orchestrator final step
   (src/dialogs/mainDialog.js). JavaScript field values are modelled by the type
   JVal below: a value is either undefined, a string, or an object given as a
   list of named fields. Truthiness, loose string comparison and string coercion
   follow JavaScript semantics for these three shapes. -/

inductive JVal : Type where
  | undef : JVal
  | jstr : String → JVal
  | jobj : List (String × JVal) → JVal

/-- JavaScript truthiness for the value shapes that occur in this program:
undefined is falsy, a string is truthy when non-empty, an object is truthy. -/
def truthy : JVal → Bool
  | JVal.undef => false
  | JVal.jstr s => !(s == "")
  | JVal.jobj _ => true

/-- Property access v[k]: field lookup on an object, undefined on anything else
(accessing a property of a string or of undefined-guarded values used in this
program never yields a defined field). -/
def jget : JVal → String → JVal
  | JVal.jobj fs, k => ((fs.lookup k).getD JVal.undef)
  | _, _ => JVal.undef

/-- String primitive of a value, as used by the loose equality v == "lit":
undefined has none, a string is itself, a plain object converts to the fixed
text that Object.prototype.toString produces. -/
def jvalToPrim : JVal → Option String
  | JVal.undef => none
  | JVal.jstr s => some s
  | JVal.jobj _ => some "[object Object]"

/-- Loose equality of a value against a string literal (the only form of ==
appearing in messagefunc and finalStep). -/
def looseEqStr (v : JVal) (s : String) : Bool :=
  match jvalToPrim v with
  | some t => t == s
  | none => false

/-- String coercion used by the + concatenation in messagefunc and by join. -/
def jvalToDisplay : JVal → String
  | JVal.undef => "undefined"
  | JVal.jstr s => s
  | JVal.jobj _ => "[object Object]"

/-- ASCII apostrophe, written by character code. -/
def apos : String := (Char.ofNat 39).toString

/-- Unicode right single quotation mark, written by character code. -/
def rquo : String := (Char.ofNat 8217).toString

/-- Fixed instructional text returned by messagefunc for ("f1", "on campus"),
transcribed from src/dialogs/mainDialog.js line 207. -/
def onCampusMsg : String :=
  "On-campus employment must meet one of the following definitions: \nThe employment takes place on school premises and the employee (student) is paid by the university for the work. Examples include GSI/GSR positions or jobs at dining halls, campus libraries, etc. This is the most common type of on-campus employment. \nThe employment takes place at a commercial firm (e.g., bookstore, coffee shop) that is located on the university floor campus and provides services for students on campus. \nThe employment takes place at an off-campus location that is educationally affiliated with UC Berkeley. The affiliation must be associated with the school" ++ apos ++ "s established curriculum or related to contractually-funded research projects at the post-graduate level. The employment must be an integral part of the student" ++ apos ++ "s educational program."

/-- Fixed instructional text returned by messagefunc for ("f1", "cpt"),
transcribed from src/dialogs/mainDialog.js line 210. -/
def cptMsg : String :=
  "Speak to a student advisor at your university to find out more about the CPT programs available at your institution, the eligibility requirements, and potential employers. If you" ++ rquo ++ "re not yet an international student in the US consider going through a program like HTIR Work-Study.\nTake any college required CPT courses necessary to become an eligible candidate.\nObtain a job offer letter on official letterhead from your employer. Universities typically have a list of specific information this letter should include, like the address where work will take place.\nApply for the college-specific CPT program through your university. Note that authorization can take a few weeks, so plan ahead. Before beginning the application process make sure you have all requested documentation such as proof of class registration.\nYou will receive a document (physical or by email) approving your application and outlining your CPT start and end date. Print, sign and make a copy of this document where required.\nTalk to your employer and send relevant documentation where required.\nStart the CPT program with your employer on the outlined start date."

/-- Fixed instructional text returned by messagefunc for ("f1", "opt"),
transcribed from src/dialogs/mainDialog.js line 213. -/
def optMsg : String :=
  "Confirm your 12-month OPT information is correct\nComplete and submit your STEM OPT Extension I-20 Request to ISS \nPick up New I-20 and prepare your application\nMail your application to USCIS."

/-- MainDialog.messagefunc (src/dialogs/mainDialog.js lines 204-219). Under the
f1 branch an unlisted work type reaches no return statement, so the call
evaluates to undefined; this is modelled by the result type Option String with
none standing for undefined. -/
def messagefunc (visa_type work_type : JVal) : Option String :=
  if looseEqStr visa_type "f1" then
    if looseEqStr work_type "on campus" then some onCampusMsg
    else if looseEqStr work_type "cpt" then some cptMsg
    else if looseEqStr work_type "opt" then some optMsg
    else none
  else
    some ("More information regarding the " ++ jvalToDisplay visa_type ++ " work authorization rules coming soon! Thanks!")

/-- The record threaded through the dialogs. The visa fields are written by
BookingDialog and read by MainDialog.finalStep; the destination, origin and
travelDate fields are written only by the vestigial BookFlight branch. Absent
fields are JVal.undef, matching an empty object literal. -/
structure UserInfo : Type where
  type : JVal
  visa_type : JVal
  work_type : JVal
  occupation_status : JVal
  destination : JVal
  origin : JVal
  travelDate : JVal

/-- The empty record, as the object literal with no fields. -/
def emptyUserInfo : UserInfo :=
  ⟨JVal.undef, JVal.undef, JVal.undef, JVal.undef, JVal.undef, JVal.undef, JVal.undef⟩

/-- BookingDialog.visaTypeStep (src/dialogs/bookingDialog.js lines 48-59): if
visa_type is falsy set it to the default f1, then pass it on as the step
result. -/
def visaTypeStep (userinfo : UserInfo) : UserInfo × JVal :=
  let userinfo :=
    if truthy userinfo.visa_type then userinfo
    else { userinfo with visa_type := JVal.jstr "f1" }
  (userinfo, userinfo.visa_type)

/-- BookingDialog.workTypeStep (src/dialogs/bookingDialog.js lines 61-73):
store the previous step result into visa_type, default work_type to opt when
falsy, pass work_type on as the step result. -/
def workTypeStep (userinfo : UserInfo) (result : JVal) : UserInfo × JVal :=
  let userinfo := { userinfo with visa_type := result }
  let userinfo :=
    if truthy userinfo.work_type then userinfo
    else { userinfo with work_type := JVal.jstr "opt" }
  (userinfo, userinfo.work_type)

/-- BookingDialog.occupationStatusStep (src/dialogs/bookingDialog.js lines
75-87): store the previous step result into work_type, default
occupation_status to student when falsy, and end the waterfall returning the
record. -/
def occupationStatusStep (userinfo : UserInfo) (result : JVal) : UserInfo :=
  let userinfo := { userinfo with work_type := result }
  if truthy userinfo.occupation_status then userinfo
  else { userinfo with occupation_status := JVal.jstr "student" }

/-- The three-step waterfall of BookingDialog run to completion on an initial
record. None of the three steps prompts (the prompt code is commented out), so
the dialog completes within the turn and returns the record. -/
def runBookingDialog (u : UserInfo) : UserInfo :=
  let s1 := visaTypeStep u
  let s2 := workTypeStep s1.1 s1.2
  occupationStatusStep s2.1 s2.2

/-- Conversion of the value assigned to msg from a messagefunc call: a missing
return gives undefined. -/
def optToJVal : Option String → JVal
  | some s => JVal.jstr s
  | none => JVal.undef

/-- The message computed by MainDialog.finalStep (src/dialogs/mainDialog.js
lines 221-246) from a non-null child-dialog result. The TimexProperty lines
compute a value that does not feed into the message and are modelled as
effect-free. Note the branch shapes: for eligibility and visa_information the
arguments are result.visa_type.visa_type and result.work_type.work_type; for
procedure_auth they are result.visa_type.visa_type and the raw
result.work_type. -/
def finalStepMsg (result : UserInfo) : JVal :=
  if looseEqStr result.type "eligibility" then
    optToJVal (messagefunc (jget result.visa_type "visa_type") (jget result.work_type "work_type"))
  else if looseEqStr result.type "visa_information" then
    optToJVal (messagefunc (jget result.visa_type "visa_type") (jget result.work_type "work_type"))
  else if looseEqStr result.type "procedure_auth" then
    optToJVal (messagefunc (jget result.visa_type "visa_type") result.work_type)
  else
    JVal.jstr "Something is wrong"

/-- MainDialog.finalStep as a whole: when the child dialog result is null or
undefined no message is sent; otherwise the computed message is sent. -/
def finalStep (result : Option UserInfo) : Option JVal :=
  match result with
  | some r => some (finalStepMsg r)
  | none => none

/-- The reply produced on the classifier-unconfigured path: actStep begins
bookingDialog with an empty record (src/dialogs/mainDialog.js lines 71-78), the
waterfall fills the defaults, and finalStep renders the message from the
returned record. -/
def unconfiguredReply : JVal := finalStepMsg (runBookingDialog emptyUserInfo)

/-- Result of the classifier query, as consumed by actStep: the top intent
label and the entity groups read through the recognizer helper methods. -/
structure LuisResult : Type where
  topIntent : String
  visaTypeEntities : JVal
  workTypeEntities : JVal
  occupationStatusEntities : JVal
  fromEntities : JVal
  toEntities : JVal
  travelDate : JVal

/-- What actStep does after its messages: hand a record to bookingDialog, or
fall through to finalStep with an undefined result (stepContext.next()). -/
inductive ActNext : Type where
  | beginBooking : UserInfo → ActNext
  | passUndefined : ActNext

/-- Outcome of one actStep call: the activities it sends, then its
continuation. -/
structure ActStepRes : Type where
  messages : List JVal
  next : ActNext

/-- MainDialog.showWarningForUnsupportedCities (src/dialogs/mainDialog.js lines
183-197): collect unmappable from/to entities and send one warning listing
them, or nothing. -/
def showWarningForUnsupportedCities (fromEntities toEntities : JVal) : List JVal :=
  let unsupportedCities : List JVal :=
    (if truthy (jget fromEntities "from") && !(truthy (jget fromEntities "airport"))
      then [jget fromEntities "from"] else [])
    ++ (if truthy (jget toEntities "to") && !(truthy (jget toEntities "airport"))
      then [jget toEntities "to"] else [])
  if unsupportedCities.length != 0 then
    [JVal.jstr ("Sorry but the following airports are not supported: "
      ++ String.intercalate ", " (unsupportedCities.map jvalToDisplay))]
  else []

/-- Text sent by the default branch of the actStep switch. -/
def didntUnderstandText (topIntent : String) : String :=
  "Sorry, I didn" ++ apos ++ "t get that. Please try asking in a different way (intent was " ++ topIntent ++ ")"

/-- MainDialog.actStep on the classifier-configured path (src/dialogs/
mainDialog.js lines 80-176): switch on the top intent. The eligibility branch
warns on unmappable entities using the visa and work entity groups (its fourth
argument is dropped by the three-parameter callee), tags the record with its
type and begins bookingDialog; procedure_auth and visa_information tag and
begin with fewer fields; BookFlight fills the vestigial flight fields;
GetWeather sends a TODO text and falls through; any other intent sends the
didntUnderstandText and falls through. -/
def actStep (luisResult : LuisResult) : ActStepRes :=
  if luisResult.topIntent = "eligibility" then
    { messages := showWarningForUnsupportedCities luisResult.visaTypeEntities luisResult.workTypeEntities,
      next := ActNext.beginBooking
        { emptyUserInfo with
          type := JVal.jstr "eligibility",
          visa_type := luisResult.visaTypeEntities,
          work_type := luisResult.workTypeEntities,
          occupation_status := luisResult.occupationStatusEntities } }
  else if luisResult.topIntent = "procedure_auth" then
    { messages := [],
      next := ActNext.beginBooking
        { emptyUserInfo with
          visa_type := luisResult.visaTypeEntities,
          type := JVal.jstr "procedure_auth" } }
  else if luisResult.topIntent = "visa_information" then
    { messages := [],
      next := ActNext.beginBooking
        { emptyUserInfo with
          type := JVal.jstr "visa_information",
          visa_type := luisResult.visaTypeEntities,
          work_type := luisResult.workTypeEntities } }
  else if luisResult.topIntent = "BookFlight" then
    { messages := showWarningForUnsupportedCities luisResult.fromEntities luisResult.toEntities,
      next := ActNext.beginBooking
        { emptyUserInfo with
          destination := jget luisResult.toEntities "airport",
          origin := jget luisResult.fromEntities "airport",
          travelDate := luisResult.travelDate } }
  else if luisResult.topIntent = "GetWeather" then
    { messages := [JVal.jstr "TODO: get weather flow here"],
      next := ActNext.passUndefined }
  else
    { messages := [JVal.jstr (didntUnderstandText luisResult.topIntent)],
      next := ActNext.passUndefined }

/-- The restart prompt installed when finalStep replaces the dialog. -/
def restartMsgText : String := "What else can I do for you?"

/-- Observable outcome of one configured turn after the intro prompt: the
activities sent and the restart prompt passed to replaceDialog. -/
structure TurnOutput : Type where
  messages : List JVal
  restartMsg : String

/-- Completion of the turn after actStep: a begun bookingDialog runs its three
steps without prompting and returns its record to finalStep, which sends the
rendered message; a fall-through reaches finalStep with an undefined result, so
no further message is sent. Either way the dialog is replaced with the restart
prompt. -/
def runTurn (a : ActStepRes) : TurnOutput :=
  match a.next with
  | ActNext.beginBooking u =>
    { messages := a.messages ++ [finalStepMsg (runBookingDialog u)],
      restartMsg := restartMsgText }
  | ActNext.passUndefined =>
    { messages := a.messages, restartMsg := restartMsgText }

/-- One configured turn from the actStep dispatch onwards. -/
def configuredTurn (luisResult : LuisResult) : TurnOutput := runTurn (actStep luisResult)

/-- The only datum of the recognizer collaborator the modelled control flow
reads. -/
structure LuisRecognizerRef : Type where
  isConfigured : Bool

/-- Constructor error text for a missing recognizer. -/
def missingLuisText : String :=
  "[MainDialog]: Missing parameter " ++ apos ++ "luisRecognizer" ++ apos ++ " is required"

/-- Constructor error text for a missing booking dialog. -/
def missingBookingText : String :=
  "[MainDialog]: Missing parameter " ++ apos ++ "bookingDialog" ++ apos ++ " is required"

/-- MainDialog constructor (src/dialogs/mainDialog.js lines 12-31): throw when
either collaborator is absent, otherwise construct. Throwing is modelled by
Except.error carrying the error text. -/
def mainDialogConstructor (luisRecognizer : Option LuisRecognizerRef)
    (bookingDialog : Option Unit) : Except String (LuisRecognizerRef × Unit) :=
  match luisRecognizer with
  | none => Except.error missingLuisText
  | some l =>
    match bookingDialog with
    | none => Except.error missingBookingText
    | some b => Except.ok (l, b)

/-- Whether construction of MainDialog completes without throwing. -/
def constructionSucceeds (luisRecognizer : Option LuisRecognizerRef)
    (bookingDialog : Option Unit) : Bool :=
  match mainDialogConstructor luisRecognizer bookingDialog with
  | Except.ok _ => true
  | Except.error _ => false

/-- A fully populated record used to instantiate idempotence concretely. -/
def fullUserInfo : UserInfo :=
  ⟨JVal.undef, JVal.jstr "h1b", JVal.jstr "cpt", JVal.jstr "employee",
   JVal.undef, JVal.undef, JVal.undef⟩

/-- Record shaped like the eligibility branch of actStep produces: entity
objects under visa_type and work_type. -/
def eligibilityRecord : UserInfo :=
  ⟨JVal.jstr "eligibility", JVal.jobj [("visa_type", JVal.jstr "f1")],
   JVal.jobj [("work_type", JVal.jstr "cpt")], JVal.jstr "student",
   JVal.undef, JVal.undef, JVal.undef⟩

/-- Record shaped like the visa_information branch of actStep produces. -/
def visaInfoRecord : UserInfo :=
  ⟨JVal.jstr "visa_information", JVal.jobj [("visa_type", JVal.jstr "f1")],
   JVal.jobj [("work_type", JVal.jstr "on campus")], JVal.jstr "student",
   JVal.undef, JVal.undef, JVal.undef⟩

/-- Record shaped like the procedure_auth branch of actStep produces after the
booking dialog defaults work_type to a raw string. -/
def procedureRecord : UserInfo :=
  ⟨JVal.jstr "procedure_auth", JVal.jobj [("visa_type", JVal.jstr "f1")],
   JVal.jstr "opt", JVal.jstr "student", JVal.undef, JVal.undef, JVal.undef⟩

/-- Record whose type field matches none of the three handled type tags. -/
def strayRecord : UserInfo :=
  ⟨JVal.jstr "greeting", JVal.jstr "f1", JVal.jstr "opt", JVal.jstr "student",
   JVal.undef, JVal.undef, JVal.undef⟩

/-- Classifier result whose top intent matches no case of the switch. -/
def unhandledLuisResult : LuisResult :=
  ⟨"None", JVal.undef, JVal.undef, JVal.undef, JVal.undef, JVal.undef, JVal.undef⟩

/-- Helper: a value loosely equal to one string literal is loosely unequal to
any different literal, since its string primitive is unique. -/
theorem looseEqStr_unique (v : JVal) (s t : String)
    (hs : looseEqStr v s = true) (hne : s ≠ t) : looseEqStr v t = false := by
  cases v with
  | undef => simp [looseEqStr, jvalToPrim] at hs
  | jstr u =>
    simp only [looseEqStr, jvalToPrim, beq_iff_eq] at hs ⊢
    subst hs
    exact beq_eq_false_iff_ne.mpr hne
  | jobj fs =>
    simp only [looseEqStr, jvalToPrim, beq_iff_eq] at hs ⊢
    subst hs
    exact beq_eq_false_iff_ne.mpr hne

/-- Helper: closed form of the three-step waterfall, by cases on which fields
are truthy on entry. -/
theorem runBookingDialog_eq (t v w o d og td : JVal) :
    runBookingDialog ⟨t, v, w, o, d, og, td⟩
      = ⟨t, if truthy v then v else JVal.jstr "f1",
           if truthy w then w else JVal.jstr "opt",
           if truthy o then o else JVal.jstr "student", d, og, td⟩ := by
  by_cases hv : truthy v = true <;> by_cases hw : truthy w = true <;>
    by_cases ho : truthy o = true <;>
    simp [runBookingDialog, visaTypeStep, workTypeStep, occupationStatusStep,
      hv, hw, ho]

/-- Helper: a field that was either kept truthy or replaced by a truthy default
is truthy. -/
theorem truthy_if_default (v : JVal) (d : String)
    (hd : truthy (JVal.jstr d) = true) :
    truthy (if truthy v then v else JVal.jstr d) = true := by
  by_cases hv : truthy v = true
  · simp [hv]
  · simpa [hv] using hd


/-- Claim C1: every record put through the three waterfall steps comes out with
all three fields visa_type, work_type and occupation_status set, each equal to
the incoming value when one was present (truthy) and to the defaults f1, opt,
student otherwise; the output is never partially populated. -/
theorem runBookingDialog_fills_all_fields (u : UserInfo) :
    truthy (runBookingDialog u).visa_type = true
  ∧ truthy (runBookingDialog u).work_type = true
  ∧ truthy (runBookingDialog u).occupation_status = true
  ∧ (runBookingDialog u).visa_type
      = (if truthy u.visa_type then u.visa_type else JVal.jstr "f1")
  ∧ (runBookingDialog u).work_type
      = (if truthy u.work_type then u.work_type else JVal.jstr "opt")
  ∧ (runBookingDialog u).occupation_status
      = (if truthy u.occupation_status then u.occupation_status else JVal.jstr "student") := by
  obtain ⟨t, v, w, o, d, og, td⟩ := u
  rw [runBookingDialog_eq]
  exact ⟨truthy_if_default v "f1" (by decide), truthy_if_default w "opt" (by decide),
    truthy_if_default o "student" (by decide), rfl, rfl, rfl⟩

/-- Claim C6: the machine leaves an already fully populated record unchanged,
and running it twice on any input gives the same record as running it once. -/
theorem runBookingDialog_idempotent (u : UserInfo) :
    ((truthy u.visa_type = true ∧ truthy u.work_type = true
        ∧ truthy u.occupation_status = true) → runBookingDialog u = u)
  ∧ runBookingDialog (runBookingDialog u) = runBookingDialog u := by
  obtain ⟨t, v, w, o, d, og, td⟩ := u
  constructor
  · rintro ⟨hv, hw, ho⟩
    rw [runBookingDialog_eq]
    simp [hv, hw, ho]
  · rw [runBookingDialog_eq, runBookingDialog_eq]
    simp [truthy_if_default v "f1" (by decide), truthy_if_default w "opt" (by decide),
      truthy_if_default o "student" (by decide)]

/-- Witness for C6 at a concrete fully populated record. -/
theorem runBookingDialog_idempotent_witness :
    runBookingDialog fullUserInfo = fullUserInfo
  ∧ runBookingDialog (runBookingDialog fullUserInfo) = runBookingDialog fullUserInfo :=
  ⟨(runBookingDialog_idempotent fullUserInfo).1 ⟨by decide, by decide, by decide⟩,
   (runBookingDialog_idempotent fullUserInfo).2⟩

/-- Claim C2: the three f1 table entries are exactly the three fixed texts,
each non-empty and pairwise distinct, and for visa type h1b the result for any
work type is a defined string containing the substring h1b. -/
theorem messagefunc_f1_table :
    messagefunc (JVal.jstr "f1") (JVal.jstr "on campus") = some onCampusMsg
  ∧ messagefunc (JVal.jstr "f1") (JVal.jstr "cpt") = some cptMsg
  ∧ messagefunc (JVal.jstr "f1") (JVal.jstr "opt") = some optMsg
  ∧ onCampusMsg ≠ "" ∧ cptMsg ≠ "" ∧ optMsg ≠ ""
  ∧ onCampusMsg ≠ cptMsg ∧ onCampusMsg ≠ optMsg ∧ cptMsg ≠ optMsg
  ∧ ∀ work_type : JVal, ∃ pre post : String,
      messagefunc (JVal.jstr "h1b") work_type = some (pre ++ "h1b" ++ post) := by
  refine ⟨rfl, rfl, rfl, by decide, by decide, by decide,
    by decide, by decide, by decide, ?_⟩
  intro work_type
  exact ⟨"More information regarding the ",
    " work authorization rules coming soon! Thanks!", rfl⟩

/-- Counterexample to claim C3 as stated: for the pair (f1, internship), which
is outside the three f1 entries, the lookup does not fall back to the coming
soon message; it yields undefined. -/
theorem messagefunc_f1_unlisted_counterexample :
    messagefunc (JVal.jstr "f1") (JVal.jstr "internship") = none
  ∧ messagefunc (JVal.jstr "f1") (JVal.jstr "internship")
      ≠ some ("More information regarding the " ++ "f1"
        ++ " work authorization rules coming soon! Thanks!") := by
  exact ⟨rfl, by decide⟩

/-- Claim C3 amended: the lookup is total for f1 across the three hardcoded
work types; every combination whose visa type differs from f1 falls back to the
generic coming soon message; and f1 with an unlisted work type yields no
defined output instead of the fallback. -/
theorem messagefunc_lookup_amended :
    (messagefunc (JVal.jstr "f1") (JVal.jstr "on campus")).isSome = true
  ∧ (messagefunc (JVal.jstr "f1") (JVal.jstr "cpt")).isSome = true
  ∧ (messagefunc (JVal.jstr "f1") (JVal.jstr "opt")).isSome = true
  ∧ (∀ visa_type : String, visa_type ≠ "f1" → ∀ work_type : JVal,
      messagefunc (JVal.jstr visa_type) work_type
        = some ("More information regarding the " ++ visa_type
          ++ " work authorization rules coming soon! Thanks!"))
  ∧ (∀ work_type : String,
      work_type ≠ "on campus" → work_type ≠ "cpt" → work_type ≠ "opt" →
      messagefunc (JVal.jstr "f1") (JVal.jstr work_type) = none) := by
  refine ⟨rfl, rfl, rfl, ?_, ?_⟩
  · intro visa_type hv work_type
    simp [messagefunc, looseEqStr, jvalToPrim, jvalToDisplay, hv]
  · intro work_type h1 h2 h3
    simp [messagefunc, looseEqStr, jvalToPrim, h1, h2, h3]

/-- Witness for the amended C3 at concrete inputs outside the table. -/
theorem messagefunc_lookup_amended_witness :
    messagefunc (JVal.jstr "h1b") (JVal.jstr "opt")
      = some ("More information regarding the " ++ "h1b"
        ++ " work authorization rules coming soon! Thanks!")
  ∧ messagefunc (JVal.jstr "f1") (JVal.jstr "h4") = none :=
  ⟨messagefunc_lookup_amended.2.2.2.1 "h1b" (by decide) (JVal.jstr "opt"),
   messagefunc_lookup_amended.2.2.2.2 "h4" (by decide) (by decide) (by decide)⟩

/-- Claim C4: for visa type f1 and any work type outside the three listed ones
the call completes normally with no defined output; no branch returning a
string is reached, which the total embedding expresses by the result none. -/
theorem messagefunc_f1_gap (work_type : String)
    (h1 : work_type ≠ "on campus") (h2 : work_type ≠ "cpt")
    (h3 : work_type ≠ "opt") :
    messagefunc (JVal.jstr "f1") (JVal.jstr work_type) = none := by
  simp [messagefunc, looseEqStr, jvalToPrim, h1, h2, h3]

/-- Witness for C4 at a concrete unlisted work type. -/
theorem messagefunc_f1_gap_witness :
    messagefunc (JVal.jstr "f1") (JVal.jstr "volunteer") = none :=
  messagefunc_f1_gap "volunteer" (by decide) (by decide) (by decide)

/-- Counterexample to claim C5 as stated: on the classifier-unconfigured path
the final reply is the fixed text Something is wrong, not the OPT instructional
string. -/
theorem unconfigured_reply_counterexample :
    unconfiguredReply = JVal.jstr "Something is wrong"
  ∧ unconfiguredReply ≠ JVal.jstr optMsg := by
  constructor
  · rfl
  · intro h
    rw [show unconfiguredReply = JVal.jstr "Something is wrong" from rfl,
      JVal.jstr.injEq] at h
    exact absurd h (by decide)

/-- Claim C5 amended: with the classifier unconfigured the turn skips
classification and runs the detail-collection machine on an empty record, which
fills the defaults f1, opt, student; but the record carries no type tag, so the
final step sends the fixed text Something is wrong rather than the OPT
instructional string. -/
theorem unconfigured_turn_amended :
    runBookingDialog emptyUserInfo
      = ⟨JVal.undef, JVal.jstr "f1", JVal.jstr "opt", JVal.jstr "student",
         JVal.undef, JVal.undef, JVal.undef⟩
  ∧ unconfiguredReply = JVal.jstr "Something is wrong" :=
  ⟨rfl, rfl⟩

/-- Claim C7: in the final step the work-type argument of the lookup is read
through the nested sub-field work_type.work_type for the eligibility and
visa_information type tags, and as the raw work_type value for procedure_auth,
while the visa-type argument is always the nested visa_type.visa_type. -/
theorem finalStep_branch_shapes (result : UserInfo) :
    (looseEqStr result.type "eligibility" = true →
      finalStepMsg result
        = optToJVal (messagefunc (jget result.visa_type "visa_type")
            (jget result.work_type "work_type")))
  ∧ (looseEqStr result.type "visa_information" = true →
      finalStepMsg result
        = optToJVal (messagefunc (jget result.visa_type "visa_type")
            (jget result.work_type "work_type")))
  ∧ (looseEqStr result.type "procedure_auth" = true →
      finalStepMsg result
        = optToJVal (messagefunc (jget result.visa_type "visa_type")
            result.work_type)) := by
  refine ⟨?_, ?_, ?_⟩ <;> intro h
  · simp [finalStepMsg, h]
  · have h1 := looseEqStr_unique result.type "visa_information" "eligibility" h (by decide)
    simp [finalStepMsg, h, h1]
  · have h1 := looseEqStr_unique result.type "procedure_auth" "eligibility" h (by decide)
    have h2 := looseEqStr_unique result.type "procedure_auth" "visa_information" h (by decide)
    simp [finalStepMsg, h, h1, h2]

/-- Witness for C7 at three concrete records, one per handled type tag. -/
theorem finalStep_branch_shapes_witness :
    finalStepMsg eligibilityRecord
      = optToJVal (messagefunc (jget eligibilityRecord.visa_type "visa_type")
          (jget eligibilityRecord.work_type "work_type"))
  ∧ finalStepMsg visaInfoRecord
      = optToJVal (messagefunc (jget visaInfoRecord.visa_type "visa_type")
          (jget visaInfoRecord.work_type "work_type"))
  ∧ finalStepMsg procedureRecord
      = optToJVal (messagefunc (jget procedureRecord.visa_type "visa_type")
          procedureRecord.work_type) :=
  ⟨(finalStep_branch_shapes eligibilityRecord).1 (by decide),
   (finalStep_branch_shapes visaInfoRecord).2.1 (by decide),
   (finalStep_branch_shapes procedureRecord).2.2 (by decide)⟩

/-- Claim C8: constructing MainDialog without the recognizer throws the
recognizer error, without the booking dialog throws the booking error, and
construction succeeds exactly when both collaborators are supplied. -/
theorem mainDialogConstructor_requires_collaborators :
    (∀ bookingDialog : Option Unit,
      mainDialogConstructor none bookingDialog = Except.error missingLuisText)
  ∧ (∀ l : LuisRecognizerRef,
      mainDialogConstructor (some l) none = Except.error missingBookingText)
  ∧ (∀ (luisRecognizer : Option LuisRecognizerRef) (bookingDialog : Option Unit),
      constructionSucceeds luisRecognizer bookingDialog
        = (luisRecognizer.isSome && bookingDialog.isSome)) := by
  refine ⟨fun b => rfl, fun l => rfl, ?_⟩
  intro l b
  cases l <;> cases b <;> rfl

/-- Claim C9: on any top intent outside the five handled cases, the turn sends
exactly the didntUnderstandText and nothing else, and the dialog is replaced
with the restart prompt What else can I do for you. -/
theorem configuredTurn_unhandled_intent (luisResult : LuisResult)
    (h1 : luisResult.topIntent ≠ "eligibility")
    (h2 : luisResult.topIntent ≠ "procedure_auth")
    (h3 : luisResult.topIntent ≠ "visa_information")
    (h4 : luisResult.topIntent ≠ "BookFlight")
    (h5 : luisResult.topIntent ≠ "GetWeather") :
    configuredTurn luisResult
      = { messages := [JVal.jstr (didntUnderstandText luisResult.topIntent)],
          restartMsg := "What else can I do for you?" } := by
  simp [configuredTurn, actStep, runTurn, restartMsgText, h1, h2, h3, h4, h5]

/-- Witness for C9 at a concrete unhandled top intent. -/
theorem configuredTurn_unhandled_intent_witness :
    configuredTurn unhandledLuisResult
      = { messages := [JVal.jstr (didntUnderstandText "None")],
          restartMsg := "What else can I do for you?" } :=
  configuredTurn_unhandled_intent unhandledLuisResult
    (by decide) (by decide) (by decide) (by decide) (by decide)

/-- Claim C10: whenever the child dialog returns a non-null record whose type
tag matches none of eligibility, visa_information, procedure_auth (including an
absent tag), the final step sends exactly the fixed text Something is wrong. -/
theorem finalStep_unknown_type (result : UserInfo)
    (h1 : looseEqStr result.type "eligibility" = false)
    (h2 : looseEqStr result.type "visa_information" = false)
    (h3 : looseEqStr result.type "procedure_auth" = false) :
    finalStep (some result) = some (JVal.jstr "Something is wrong") := by
  simp [finalStep, finalStepMsg, h1, h2, h3]

/-- Witness for C10 at a concrete record with an unhandled type tag. -/
theorem finalStep_unknown_type_witness :
    finalStep (some strayRecord) = some (JVal.jstr "Something is wrong") :=
  finalStep_unknown_type strayRecord (by decide) (by decide) (by decide)
